import Mathlib

/-!
Shallow embedding of `internal/functions/deploy/deploy.go` from the
`supabase-cli` repository, together with proofs about the deployment
pipeline: slug discovery/validation (`GetFunctionSlugs`, `Run`,
`RunDefault`), artifact bundling (`bundleFunction`), the
probe-then-create-or-update upload protocol (`deployFunction`), the retry
wrapper (`deployOne`) and sequential batch orchestration (`deployAll`).

External effects (the remote API, the filesystem, the sandboxed bundler)
are modelled by explicit environments supplying each call's outcome, and
every function additionally returns the trace of observable events it
emitted, so that spy-style properties ("zero network calls happened
before the error") become statements about the trace.  Byte buffers are
`List Nat`; the `io.Reader` passed to the upload calls is threaded
explicitly, and reading it for an HTTP request body drains it, exactly as
Go's `bytes.Buffer` does.  Real-time aspects (backoff sleep durations,
context cancellation timing) are outside the embedding; the retry policy's
shape is recorded structurally.
-/

deriving instance DecidableEq for Except

namespace Deploy

/-- Byte sequences (Go `[]byte` / `bytes.Buffer` contents). -/
abbrev Bytes := List Nat

/-- An HTTP response as seen through the generated API client.
`parsedOk` records whether the response body parsed into the success
JSON type; the client's `JSON201`/`JSON200` field is non-nil exactly
when the status matches and the body parsed, which the Go code tests
with `resp.JSON201 == nil` / `resp.JSON200 == nil`. -/
structure HttpResponse where
  status : Nat
  parsedOk : Bool
  rawBody : String
  deriving DecidableEq

/-- Outcome of one network call: a transport-level failure (the `err`
return of the client method) or an HTTP response. -/
inductive NetResult where
  | transportError (msg : String)
  | response (resp : HttpResponse)
  deriving DecidableEq

/-- The remote's behaviour during one upload attempt: what the probe,
the create call and the update call would each return. -/
structure AttemptEnv where
  probe : NetResult
  create : NetResult
  update : NetResult

/-- The payload of `CreateFunctionWithBodyWithResponse`: the
`api.CreateFunctionParams` fields set at deploy.go:179-185 plus the
content type and the bytes read from the `functionBody` reader. -/
structure CreateRequest where
  slug : String
  name : String
  verifyJwt : Bool
  importMapPath : String
  entrypointPath : String
  contentType : String
  body : Bytes
  deriving DecidableEq

/-- The payload of `V1UpdateAFunctionWithBodyWithResponse`: the target
slug appears only in the request path; the `api.V1UpdateAFunctionParams`
body fields (deploy.go:193-197) carry no slug and no name. -/
structure UpdateRequest where
  targetSlug : String
  verifyJwt : Bool
  importMapPath : String
  entrypointPath : String
  contentType : String
  body : Bytes
  deriving DecidableEq

/-- Observable events: bundler invocations, API calls, and filesystem
interactions (what a spy filesystem / spy HTTP client would record). -/
inductive Event where
  | bundleInvoked (slug : String)
  | probe (projectRef slug : String)
  | create (projectRef : String) (req : CreateRequest)
  | update (projectRef : String) (req : UpdateRequest)
  | fsAccess (what : String)
  deriving DecidableEq

/-- Is this event a network (API) call? -/
def Event.isApi : Event → Bool
  | .probe _ _ => true
  | .create _ _ => true
  | .update _ _ => true
  | _ => false

/-- Is this event a filesystem interaction? -/
def Event.isFs : Event → Bool
  | .fsAccess _ => true
  | _ => false

/-- Is this event a probe call? -/
def Event.isProbe : Event → Bool
  | .probe _ _ => true
  | _ => false

/-- Is this event a create call? -/
def Event.isCreate : Event → Bool
  | .create _ _ => true
  | _ => false

/-- Is this event an update call? -/
def Event.isUpdate : Event → Bool
  | .update _ _ => true
  | _ => false

/-- Is this event a bundler invocation? -/
def Event.isBundle : Event → Bool
  | .bundleInvoked _ => true
  | _ => false

/-- The request body attached to a create or update event, if any. -/
def Event.sentBody : Event → Option Bytes
  | .create _ req => some req.body
  | .update _ req => some req.body
  | _ => none

/-- The import-map locator carried by a create or update event, if any. -/
def Event.sentImportMap : Event → Option String
  | .create _ req => some req.importMapPath
  | .update _ req => some req.importMapPath
  | _ => none

/-- The entrypoint locator carried by a create or update event, if any. -/
def Event.sentEntrypoint : Event → Option String
  | .create _ req => some req.entrypointPath
  | .update _ req => some req.entrypointPath
  | _ => none

/-- Errors of one upload attempt (`deployFunction`'s error returns). -/
inductive DeployError where
  | probeTransport (msg : String)
  | createTransport (msg : String)
  | updateTransport (msg : String)
  | createFailed (rawBody : String)
  | updateFailed (rawBody : String)
  | unexpectedStatus (rawBody : String)
  deriving DecidableEq

/-- deploy.go:27 — the content type of the compressed bundle payload. -/
def eszipContentType : String := "application/vnd.denoland.eszip"

/-- deploy.go:28 — the 4-character magic tag of the compressed
artifact container. -/
def compressedEszipMagicId : String := "EZBR"

/-- The magic tag as bytes, as written by
`bytes.NewBufferString(compressedEszipMagicId)` (deploy.go:159). -/
def magicBytes : Bytes := compressedEszipMagicId.toList.map Char.toNat

/-- Embedding of `deployFunction` (deploy.go:171-212): one upload
attempt.  Probes the function by slug; on 404 issues exactly one create
carrying slug, name (= slug), verify-JWT flag, import-map and entrypoint
locators and the body read from the reader; on 200 issues exactly one
update carrying the same metadata without slug/name body fields; on any
other status fails with the raw response body without issuing either
call.  Returns the event trace, the remaining reader contents (issuing a
create/update drains the `bytes.Buffer` reader), and the result.
Success requires the parsed `JSON201` (create) / `JSON200` (update)
body; otherwise the error carries the raw response body. -/
def deployFunction (projectRef slug entrypointUrl importMapUrl : String)
    (verifyJWT : Bool) (env : AttemptEnv) (functionBody : Bytes) :
    List Event × Bytes × Except DeployError Unit :=
  match env.probe with
  | .transportError m =>
      ([.probe projectRef slug], functionBody, .error (.probeTransport m))
  | .response resp =>
      if resp.status = 404 then
        let req : CreateRequest :=
          { slug := slug, name := slug, verifyJwt := verifyJWT
            importMapPath := importMapUrl, entrypointPath := entrypointUrl
            contentType := eszipContentType, body := functionBody }
        match env.create with
        | .transportError m =>
            ([.probe projectRef slug, .create projectRef req], [],
             .error (.createTransport m))
        | .response c =>
            if c.status = 201 ∧ c.parsedOk = true then
              ([.probe projectRef slug, .create projectRef req], [], .ok ())
            else
              ([.probe projectRef slug, .create projectRef req], [],
               .error (.createFailed c.rawBody))
      else if resp.status = 200 then
        let req : UpdateRequest :=
          { targetSlug := slug, verifyJwt := verifyJWT
            importMapPath := importMapUrl, entrypointPath := entrypointUrl
            contentType := eszipContentType, body := functionBody }
        match env.update with
        | .transportError m =>
            ([.probe projectRef slug, .update projectRef req], [],
             .error (.updateTransport m))
        | .response u =>
            if u.status = 200 ∧ u.parsedOk = true then
              ([.probe projectRef slug, .update projectRef req], [], .ok ())
            else
              ([.probe projectRef slug, .update projectRef req], [],
               .error (.updateFailed u.rawBody))
      else
        ([.probe projectRef slug], functionBody,
         .error (.unexpectedStatus resp.rawBody))

/-- Shape of a retry policy value (not its real-time behaviour). -/
inductive BackoffKind where
  | exponential
  | constant
  deriving DecidableEq

/-- Structural description of a `backoff` policy. -/
structure RetryPolicy where
  kind : BackoffKind
  maxRetries : Nat
  contextBound : Bool
  deriving DecidableEq

/-- deploy.go:225 — the policy wrapping the upload phase:
`backoff.WithContext(backoff.WithMaxRetries(backoff.NewExponentialBackOff(), 3), ctx)`. -/
def deployOnePolicy : RetryPolicy :=
  { kind := .exponential, maxRetries := 3, contextBound := true }

/-- The retry budget used by `deployOne`: 3 retries, hence at most 4
attempts in total. -/
def maxUploadRetries : Nat := deployOnePolicy.maxRetries

/-- Embedding of `backoff.Retry` around `deployFunction`
(deploy.go:226-236): `fuel` is the number of retries still allowed,
`i` the index of the current attempt into the scripted remote `net`,
`buf` the current contents of the shared `bytes.Buffer` reader, which
is threaded from attempt to attempt (never refilled).  Stops on the
first success, otherwise retries until the budget is exhausted and
returns the last error.  Backoff sleeps and context cancellation are
real-time and not modelled. -/
def retryUpload (projectRef slug entrypointUrl importMapUrl : String)
    (verifyJWT : Bool) (net : Nat → AttemptEnv) :
    Nat → Nat → Bytes → List Event × Except DeployError Unit
  | 0, i, buf =>
      let r := deployFunction projectRef slug entrypointUrl importMapUrl
        verifyJWT (net i) buf
      (r.1, r.2.2)
  | fuel + 1, i, buf =>
      let r := deployFunction projectRef slug entrypointUrl importMapUrl
        verifyJWT (net i) buf
      match r.2.2 with
      | .ok _ => (r.1, .ok ())
      | .error _ =>
          let rest := retryUpload projectRef slug entrypointUrl importMapUrl
            verifyJWT net fuel (i + 1) r.2.1
          (r.1 ++ rest.1, rest.2)

/-- The bundled artifact (`eszipFunction` struct, deploy.go:79-83). -/
structure eszipFunction where
  compressedBody : Bytes
  entrypointPath : String
  importMapPath : String
  deriving DecidableEq

/-- Failures of `bundleFunction`, in source order. -/
inductive BundleError where
  | mkdirError (msg : String)
  | bindImportMapError (msg : String)
  | dockerError (msg : String)
  | openEszipError (msg : String)
  | brotliError
  deriving DecidableEq

/-- Environment for one `bundleFunction` call: the outcomes of the
temp-dir creation, of `utils.BindImportMap` (only consulted when an
import-map override path is given; yields the container-side path), of
the sandboxed bundler run, of opening the produced output file (its
bytes on success), and of streaming it through the brotli writer. -/
structure BundleEnv where
  mkdir : Except String Unit
  bindImportMap : Except String String
  dockerRun : Except String Unit
  openOutput : Except String Bytes
  copyOk : Bool

/-- Go `path.Join` restricted to the shapes used here: clean,
slash-separated paths without trailing slashes (the docker-side
directories built at deploy.go:104-117). -/
def pathJoin (a b : String) : String :=
  if a = "" then b else a ++ "/" ++ b

/-- Embedding of `bundleFunction` (deploy.go:85-169).  `dockerFuncDir`
is the container-side functions directory (`utils.ToDockerPath` of the
host functions dir).  Creates the temp output dir, fixes the
entrypoint locator `<dockerFuncDir>/<slug>/index.ts` and the default
import-map locator `<dockerFuncDir>/import_map.json` (overridden via
`BindImportMap` when `hostImportMapPath` is non-empty), runs the
sandboxed bundler, reads the produced eszip and wraps it: the magic tag
bytes followed by the brotli-compressed stream (`compress` is the
black-box brotli encoder).  Exactly one bundler invocation per call. -/
def bundleFunction (slug hostImportMapPath dockerFuncDir : String)
    (compress : Bytes → Bytes) (env : BundleEnv) :
    List Event × Except BundleError eszipFunction :=
  let evs := [Event.bundleInvoked slug]
  match env.mkdir with
  | .error m => (evs, .error (.mkdirError m))
  | .ok _ =>
    let entrypointPath := pathJoin (pathJoin dockerFuncDir slug) "index.ts"
    let defaultImportMapPath := pathJoin dockerFuncDir "import_map.json"
    let importMapResolved : Except BundleError String :=
      if hostImportMapPath = "" then .ok defaultImportMapPath
      else
        match env.bindImportMap with
        | .error m => .error (.bindImportMapError m)
        | .ok dockerImportMapPath => .ok dockerImportMapPath
    match importMapResolved with
    | .error e => (evs, .error e)
    | .ok importMapPath =>
      match env.dockerRun with
      | .error m => (evs, .error (.dockerError m))
      | .ok _ =>
        match env.openOutput with
        | .error m => (evs, .error (.openEszipError m))
        | .ok eszipBytes =>
          if env.copyOk then
            (evs, .ok { compressedBody := magicBytes ++ compress eszipBytes
                        entrypointPath := entrypointPath
                        importMapPath := importMapPath })
          else
            (evs, .error .brotliError)

/-- The per-function config consumed by `deployOne`
(`utils.GetFunctionConfig`'s result — resolved by the external config
collaborator, consumed, not owned, by this core): the resolved
import-map override path (empty string when none) and the resolved
verify-JWT flag. -/
structure FunctionConfig where
  importMap : String
  verifyJWT : Bool

/-- Errors surfaced by `deployOne`. -/
inductive DeployOneError where
  | bundle (e : BundleError)
  | upload (e : DeployError)
  deriving DecidableEq

/-- Embedding of `deployOne` (deploy.go:214-237): bundles the function
once; on bundle failure returns immediately (no upload attempt).  On
success wraps the upload in the retry policy, passing the locators
prefixed with `file://` and the single shared compressed-body buffer to
every attempt. -/
def deployOne (slug projectRef dockerFuncDir : String) (fc : FunctionConfig)
    (compress : Bytes → Bytes) (benv : BundleEnv) (net : Nat → AttemptEnv) :
    List Event × Except DeployOneError Unit :=
  match bundleFunction slug fc.importMap dockerFuncDir compress benv with
  | (bevs, .error e) => (bevs, .error (.bundle e))
  | (bevs, .ok eszip) =>
      let u := retryUpload projectRef slug
        ("file://" ++ eszip.entrypointPath) ("file://" ++ eszip.importMapPath)
        fc.verifyJWT net maxUploadRetries 0 eszip.compressedBody
      (bevs ++ u.1, u.2.mapError .upload)

/-- Embedding of `deployAll` (deploy.go:239-247): strictly sequential
iteration over the slugs in the order given; the first failing
`deployOne` aborts the batch and its error is returned; later slugs are
never attempted. -/
def deployAll (projectRef dockerFuncDir : String)
    (fc : String → FunctionConfig) (compress : Bytes → Bytes)
    (benv : String → BundleEnv) (net : String → Nat → AttemptEnv) :
    List String → List Event × Except DeployOneError Unit
  | [] => ([], .ok ())
  | slug :: rest =>
      let r := deployOne slug projectRef dockerFuncDir (fc slug) compress
        (benv slug) (net slug)
      match r.2 with
      | .error e => (r.1, .error e)
      | .ok _ =>
          let rs := deployAll projectRef dockerFuncDir fc compress benv net rest
          (r.1 ++ rs.1, rs.2)

/-- Modelled from the spec: `utils.FuncSlugPattern` (not under src/) —
"must match a fixed naming pattern (alphanumeric plus hyphen/underscore,
non-empty)". -/
def FuncSlugPattern (s : String) : Bool :=
  s ≠ "" && s.toList.all fun c => c.isAlphanum || c = '-' || c = '_'

/-- Split a character list on a separator character (used to model Go
`filepath` operations on clean slash-separated paths). -/
def splitOnChar (c : Char) : List Char → List (List Char)
  | [] => [[]]
  | x :: xs =>
      match splitOnChar c xs with
      | [] => if x = c then [[], []] else [[x]]
      | y :: ys => if x = c then [] :: y :: ys else (x :: y) :: ys

/-- Join path components back with slashes. -/
def joinWithSlash : List (List Char) → List Char
  | [] => []
  | [x] => x
  | x :: xs => x ++ '/' :: joinWithSlash xs

/-- Go `filepath.Base` restricted to the clean, slash-separated
relative paths returned by `afero.Glob` (deploy.go:65-71). -/
def filepathBase (p : String) : String :=
  match (splitOnChar '/' p.toList).reverse with
  | [] => "."
  | x :: _ => String.mk x

/-- Go `filepath.Dir` restricted to the clean, slash-separated
relative paths returned by `afero.Glob`. -/
def filepathDir (p : String) : String :=
  String.mk (joinWithSlash (splitOnChar '/' p.toList).dropLast)

/-- The slug a glob match contributes: the base name of the match's
parent directory (deploy.go:71). -/
def slugOfPath (p : String) : String := filepathBase (filepathDir p)

/-- Embedding of `GetFunctionSlugs` (deploy.go:63-77): glob the
per-function entrypoint files (`globResult` is the filesystem's answer
for pattern `<FunctionsDir>/*/index.ts`), derive each slug from the
match's parent directory name, and keep only — silently, without
error — those matching the naming pattern. -/
def GetFunctionSlugs (globResult : Except String (List String)) :
    List Event × Except String (List String) :=
  ([Event.fsAccess "glob"],
   match globResult with
   | .error e => .error ("failed to glob function slugs: " ++ e)
   | .ok paths =>
       .ok (paths.filterMap fun p =>
         if FuncSlugPattern (slugOfPath p) then some (slugOfPath p) else none))

/-- Errors surfaced by `Run` / `RunDefault`. -/
inductive RunError where
  | configError (msg : String)
  | globError (msg : String)
  | invalidSlug (slug : String)
  | noFunctionsFound
  | deploy (e : DeployOneError)
  deriving DecidableEq

/-- Modelled from the spec: `utils.ValidateFunctionSlug` (not under
src/) — "each is validated against the same pattern", yielding
`InvalidSlugError` on a mismatch. -/
def ValidateFunctionSlug (slug : String) : Except RunError Unit :=
  if FuncSlugPattern slug then .ok () else .error (.invalidSlug slug)

/-- The validation loop of `Run` (deploy.go:43-47): the first invalid
slug aborts the whole call. -/
def validateAll : List String → Except RunError Unit
  | [] => .ok ()
  | slug :: rest =>
      match ValidateFunctionSlug slug with
      | .error e => .error e
      | .ok _ => validateAll rest

/-- Modelled from the spec: `utils.LoadConfigFS` (not under src/) —
the out-of-scope "TOML-based project configuration loading", which
reads the project config from the filesystem (it is handed the `fsys`
handle at deploy.go:33); `cfgLoad` is its outcome.  A spy filesystem
records the read. -/
def LoadConfigFS (cfgLoad : Except String Unit) :
    List Event × Except String Unit :=
  ([Event.fsAccess "loadConfig"], cfgLoad)

/-- Embedding of `Run` (deploy.go:31-53): loads the project config,
then either validates the explicit slugs (first invalid aborts) or
discovers slugs from the source tree; fails with the no-functions
error when the resulting list is empty; otherwise deploys all. -/
def Run (slugs : List String) (projectRef dockerFuncDir : String)
    (cfgLoad : Except String Unit) (globResult : Except String (List String))
    (fc : String → FunctionConfig) (compress : Bytes → Bytes)
    (benv : String → BundleEnv) (net : String → Nat → AttemptEnv) :
    List Event × Except RunError Unit :=
  let cfg := LoadConfigFS cfgLoad
  match cfg.2 with
  | .error m => (cfg.1, .error (.configError m))
  | .ok _ =>
    match slugs with
    | [] =>
        let g := GetFunctionSlugs globResult
        match g.2 with
        | .error m => (cfg.1 ++ g.1, .error (.globError m))
        | .ok found =>
            if found = [] then (cfg.1 ++ g.1, .error .noFunctionsFound)
            else
              let d := deployAll projectRef dockerFuncDir fc compress benv net
                found
              (cfg.1 ++ g.1 ++ d.1, d.2.mapError .deploy)
    | _ :: _ =>
        match validateAll slugs with
        | .error e => (cfg.1, .error e)
        | .ok _ =>
            let d := deployAll projectRef dockerFuncDir fc compress benv net
              slugs
            (cfg.1 ++ d.1, d.2.mapError .deploy)

/-- Embedding of `RunDefault` (deploy.go:55-61): discovers slugs and,
when zero are found, returns `err` from discovery — which is `nil`
when the glob itself succeeded, so an empty discovery is NOT an
error here; otherwise deploys all with no import-map override and no
verify-JWT override. -/
def RunDefault (projectRef dockerFuncDir : String)
    (globResult : Except String (List String))
    (fc : String → FunctionConfig) (compress : Bytes → Bytes)
    (benv : String → BundleEnv) (net : String → Nat → AttemptEnv) :
    List Event × Except RunError Unit :=
  let g := GetFunctionSlugs globResult
  match g.2 with
  | .error m => (g.1, .error (.globError m))
  | .ok found =>
      if found = [] then (g.1, .ok ())
      else
        let d := deployAll projectRef dockerFuncDir fc compress benv net found
        (g.1 ++ d.1, d.2.mapError .deploy)

/-! ### Branch lemmas for one upload attempt -/

/-- A transport failure of the probe ends the attempt after the probe. -/
theorem deployFunction_probe_transport (projectRef slug e i : String)
    (vj : Bool) (env : AttemptEnv) (buf : Bytes) (m : String)
    (hp : env.probe = .transportError m) :
    deployFunction projectRef slug e i vj env buf =
      ([.probe projectRef slug], buf, .error (.probeTransport m)) := by
  simp [deployFunction, hp]

/-- A 404 probe dispatches to exactly one create call carrying the
slug, the display name (= slug), the verify-JWT flag, the locators and
the full reader contents; success iff the response is a parsed 201. -/
theorem deployFunction_probe_404 (projectRef slug e i : String)
    (vj : Bool) (env : AttemptEnv) (buf : Bytes) (r c : HttpResponse)
    (hp : env.probe = .response r) (h4 : r.status = 404)
    (hc : env.create = .response c) :
    deployFunction projectRef slug e i vj env buf =
      ([.probe projectRef slug,
        .create projectRef ⟨slug, slug, vj, i, e, eszipContentType, buf⟩], [],
       if c.status = 201 ∧ c.parsedOk = true then .ok ()
       else .error (.createFailed c.rawBody)) := by
  simp only [deployFunction, hp, h4, if_true, hc]
  split <;> simp_all

/-- A 404 probe answered by a create transport failure. -/
theorem deployFunction_probe_404_transport (projectRef slug e i : String)
    (vj : Bool) (env : AttemptEnv) (buf : Bytes) (r : HttpResponse) (m : String)
    (hp : env.probe = .response r) (h4 : r.status = 404)
    (hc : env.create = .transportError m) :
    deployFunction projectRef slug e i vj env buf =
      ([.probe projectRef slug,
        .create projectRef ⟨slug, slug, vj, i, e, eszipContentType, buf⟩], [],
       .error (.createTransport m)) := by
  simp [deployFunction, hp, h4, hc]

/-- A 200 probe dispatches to exactly one update call carrying the
verify-JWT flag and the locators (no slug/name body fields); success
iff the response is a parsed 200. -/
theorem deployFunction_probe_200 (projectRef slug e i : String)
    (vj : Bool) (env : AttemptEnv) (buf : Bytes) (r u : HttpResponse)
    (hp : env.probe = .response r) (h2 : r.status = 200)
    (hu : env.update = .response u) :
    deployFunction projectRef slug e i vj env buf =
      ([.probe projectRef slug,
        .update projectRef ⟨slug, vj, i, e, eszipContentType, buf⟩], [],
       if u.status = 200 ∧ u.parsedOk = true then .ok ()
       else .error (.updateFailed u.rawBody)) := by
  have h4 : ¬ r.status = 404 := by omega
  by_cases hok : u.status = 200 ∧ u.parsedOk = true <;>
    simp [deployFunction, hp, h4, h2, hu, hok]

/-- A 200 probe answered by an update transport failure. -/
theorem deployFunction_probe_200_transport (projectRef slug e i : String)
    (vj : Bool) (env : AttemptEnv) (buf : Bytes) (r : HttpResponse) (m : String)
    (hp : env.probe = .response r) (h2 : r.status = 200)
    (hu : env.update = .transportError m) :
    deployFunction projectRef slug e i vj env buf =
      ([.probe projectRef slug,
        .update projectRef ⟨slug, vj, i, e, eszipContentType, buf⟩], [],
       .error (.updateTransport m)) := by
  have h4 : ¬ r.status = 404 := by omega
  simp [deployFunction, hp, h4, h2, hu]

/-- Any other probe status fails the attempt with the raw response
body, with neither create nor update issued and the reader untouched. -/
theorem deployFunction_probe_unexpected (projectRef slug e i : String)
    (vj : Bool) (env : AttemptEnv) (buf : Bytes) (r : HttpResponse)
    (hp : env.probe = .response r) (h4 : r.status ≠ 404) (h2 : r.status ≠ 200) :
    deployFunction projectRef slug e i vj env buf =
      ([.probe projectRef slug], buf, .error (.unexpectedStatus r.rawBody)) := by
  simp [deployFunction, hp, h4, h2]

/-- Every attempt's trace begins with a probe and contains exactly one
probe event. -/
theorem deployFunction_one_probe (projectRef slug e i : String)
    (vj : Bool) (env : AttemptEnv) (buf : Bytes) :
    (deployFunction projectRef slug e i vj env buf).1.countP Event.isProbe = 1 ∧
    (deployFunction projectRef slug e i vj env buf).1.head? =
      some (.probe projectRef slug) := by
  rcases hp : env.probe with m | r
  · rw [deployFunction_probe_transport projectRef slug e i vj env buf m hp]
    simp [Event.isProbe]
  · by_cases h4 : r.status = 404
    · rcases hc : env.create with m | c
      · rw [deployFunction_probe_404_transport projectRef slug e i vj env buf r m hp h4 hc]
        simp [Event.isProbe, Event.isCreate]
      · rw [deployFunction_probe_404 projectRef slug e i vj env buf r c hp h4 hc]
        simp [Event.isProbe]
    · by_cases h2 : r.status = 200
      · rcases hu : env.update with m | u
        · rw [deployFunction_probe_200_transport projectRef slug e i vj env buf r m hp h2 hu]
          simp [Event.isProbe]
        · rw [deployFunction_probe_200 projectRef slug e i vj env buf r u hp h2 hu]
          simp [Event.isProbe]
      · rw [deployFunction_probe_unexpected projectRef slug e i vj env buf r hp h4 h2]
        simp [Event.isProbe]

/-- No attempt ever invokes the bundler. -/
theorem deployFunction_no_bundle (projectRef slug e i : String)
    (vj : Bool) (env : AttemptEnv) (buf : Bytes) :
    (deployFunction projectRef slug e i vj env buf).1.countP Event.isBundle = 0 := by
  rcases hp : env.probe with m | r
  · rw [deployFunction_probe_transport projectRef slug e i vj env buf m hp]
    simp [Event.isBundle]
  · by_cases h4 : r.status = 404
    · rcases hc : env.create with m | c
      · rw [deployFunction_probe_404_transport projectRef slug e i vj env buf r m hp h4 hc]
        simp [Event.isBundle]
      · rw [deployFunction_probe_404 projectRef slug e i vj env buf r c hp h4 hc]
        simp [Event.isBundle]
    · by_cases h2 : r.status = 200
      · rcases hu : env.update with m | u
        · rw [deployFunction_probe_200_transport projectRef slug e i vj env buf r m hp h2 hu]
          simp [Event.isBundle]
        · rw [deployFunction_probe_200 projectRef slug e i vj env buf r u hp h2 hu]
          simp [Event.isBundle]
      · rw [deployFunction_probe_unexpected projectRef slug e i vj env buf r hp h4 h2]
        simp [Event.isBundle]

/-- Every create and update event of an attempt carries exactly the
entrypoint and import-map locators the attempt was given. -/
theorem deployFunction_locators (projectRef slug e i : String)
    (vj : Bool) (env : AttemptEnv) (buf : Bytes) :
    ∀ ev ∈ (deployFunction projectRef slug e i vj env buf).1,
      (∀ s, ev.sentImportMap = some s → s = i) ∧
      (∀ s, ev.sentEntrypoint = some s → s = e) := by
  rcases hp : env.probe with m | r
  · rw [deployFunction_probe_transport projectRef slug e i vj env buf m hp]
    intro ev hev
    fin_cases hev <;> simp [Event.sentImportMap, Event.sentEntrypoint]
  · by_cases h4 : r.status = 404
    · rcases hc : env.create with m | c
      · rw [deployFunction_probe_404_transport projectRef slug e i vj env buf r m hp h4 hc]
        intro ev hev
        fin_cases hev <;> simp [Event.sentImportMap, Event.sentEntrypoint]
      · rw [deployFunction_probe_404 projectRef slug e i vj env buf r c hp h4 hc]
        intro ev hev
        fin_cases hev <;> simp [Event.sentImportMap, Event.sentEntrypoint]
    · by_cases h2 : r.status = 200
      · rcases hu : env.update with m | u
        · rw [deployFunction_probe_200_transport projectRef slug e i vj env buf r m hp h2 hu]
          intro ev hev
          fin_cases hev <;> simp [Event.sentImportMap, Event.sentEntrypoint]
        · rw [deployFunction_probe_200 projectRef slug e i vj env buf r u hp h2 hu]
          intro ev hev
          fin_cases hev <;> simp [Event.sentImportMap, Event.sentEntrypoint]
      · rw [deployFunction_probe_unexpected projectRef slug e i vj env buf r hp h4 h2]
        intro ev hev
        fin_cases hev <;> simp [Event.sentImportMap, Event.sentEntrypoint]

/-! ### Lemmas about the retry loop -/

/-- Unfolding: with retries left, a successful attempt stops the loop. -/
theorem retryUpload_succ_ok (projectRef slug e i : String) (vj : Bool)
    (net : Nat → AttemptEnv) (fuel idx : Nat) (buf : Bytes) (u : Unit)
    (h : (deployFunction projectRef slug e i vj (net idx) buf).2.2 = .ok u) :
    retryUpload projectRef slug e i vj net (fuel + 1) idx buf =
      ((deployFunction projectRef slug e i vj (net idx) buf).1, .ok ()) := by
  simp only [retryUpload]
  rw [h]

/-- Unfolding: with retries left, a failed attempt is followed by a
fresh attempt on the remaining reader contents. -/
theorem retryUpload_succ_err (projectRef slug e i : String) (vj : Bool)
    (net : Nat → AttemptEnv) (fuel idx : Nat) (buf : Bytes) (err : DeployError)
    (h : (deployFunction projectRef slug e i vj (net idx) buf).2.2 = .error err) :
    retryUpload projectRef slug e i vj net (fuel + 1) idx buf =
      ((deployFunction projectRef slug e i vj (net idx) buf).1 ++
        (retryUpload projectRef slug e i vj net fuel (idx + 1)
          (deployFunction projectRef slug e i vj (net idx) buf).2.1).1,
       (retryUpload projectRef slug e i vj net fuel (idx + 1)
          (deployFunction projectRef slug e i vj (net idx) buf).2.1).2) := by
  simp only [retryUpload]
  rw [h]

/-- When the retry budget is exhausted with an error, every one of the
`fuel + 1` attempts ran and each issued its own fresh probe. -/
theorem retryUpload_error_probes (projectRef slug e i : String) (vj : Bool)
    (net : Nat → AttemptEnv) :
    ∀ fuel idx buf err,
      (retryUpload projectRef slug e i vj net fuel idx buf).2 = .error err →
      (retryUpload projectRef slug e i vj net fuel idx buf).1.countP
        Event.isProbe = fuel + 1 := by
  intro fuel
  induction fuel with
  | zero =>
      intro idx buf err _
      simp only [retryUpload]
      exact (deployFunction_one_probe projectRef slug e i vj (net idx) buf).1
  | succ n ih =>
      intro idx buf err herr
      rcases hres : (deployFunction projectRef slug e i vj (net idx) buf).2.2
        with u | er
      · rw [retryUpload_succ_err projectRef slug e i vj net n idx buf u hres] at herr ⊢
        simp only [List.countP_append]
        rw [(deployFunction_one_probe projectRef slug e i vj (net idx) buf).1,
          ih (idx + 1) (deployFunction projectRef slug e i vj (net idx) buf).2.1 err herr]
        omega
      · rw [retryUpload_succ_ok projectRef slug e i vj net n idx buf er hres] at herr
        exact absurd herr (by simp)

/-- The retry loop makes at most `fuel + 1` attempts, hence at most
`fuel + 1` probes. -/
theorem retryUpload_probes_le (projectRef slug e i : String) (vj : Bool)
    (net : Nat → AttemptEnv) :
    ∀ fuel idx buf,
      (retryUpload projectRef slug e i vj net fuel idx buf).1.countP
        Event.isProbe ≤ fuel + 1 := by
  intro fuel
  induction fuel with
  | zero =>
      intro idx buf
      simp only [retryUpload]
      rw [(deployFunction_one_probe projectRef slug e i vj (net idx) buf).1]
  | succ n ih =>
      intro idx buf
      rcases hres : (deployFunction projectRef slug e i vj (net idx) buf).2.2
        with u | er
      · rw [retryUpload_succ_err projectRef slug e i vj net n idx buf u hres]
        simp only [List.countP_append]
        rw [(deployFunction_one_probe projectRef slug e i vj (net idx) buf).1]
        have := ih (idx + 1) (deployFunction projectRef slug e i vj (net idx) buf).2.1
        omega
      · rw [retryUpload_succ_ok projectRef slug e i vj net n idx buf er hres]
        rw [(deployFunction_one_probe projectRef slug e i vj (net idx) buf).1]
        omega

/-- The retry loop never invokes the bundler. -/
theorem retryUpload_no_bundle (projectRef slug e i : String) (vj : Bool)
    (net : Nat → AttemptEnv) :
    ∀ fuel idx buf,
      (retryUpload projectRef slug e i vj net fuel idx buf).1.countP
        Event.isBundle = 0 := by
  intro fuel
  induction fuel with
  | zero =>
      intro idx buf
      simp only [retryUpload]
      exact deployFunction_no_bundle projectRef slug e i vj (net idx) buf
  | succ n ih =>
      intro idx buf
      rcases hres : (deployFunction projectRef slug e i vj (net idx) buf).2.2
        with u | er
      · rw [retryUpload_succ_err projectRef slug e i vj net n idx buf u hres]
        simp only [List.countP_append]
        rw [deployFunction_no_bundle projectRef slug e i vj (net idx) buf,
          ih (idx + 1) (deployFunction projectRef slug e i vj (net idx) buf).2.1]
      · rw [retryUpload_succ_ok projectRef slug e i vj net n idx buf er hres]
        exact deployFunction_no_bundle projectRef slug e i vj (net idx) buf

/-- Every create/update issued by the retry loop carries the locators
the loop was given (the same ones on every attempt). -/
theorem retryUpload_locators (projectRef slug e i : String) (vj : Bool)
    (net : Nat → AttemptEnv) :
    ∀ fuel idx buf,
      ∀ ev ∈ (retryUpload projectRef slug e i vj net fuel idx buf).1,
        (∀ s, ev.sentImportMap = some s → s = i) ∧
        (∀ s, ev.sentEntrypoint = some s → s = e) := by
  intro fuel
  induction fuel with
  | zero =>
      intro idx buf ev hev
      simp only [retryUpload] at hev
      exact deployFunction_locators projectRef slug e i vj (net idx) buf ev hev
  | succ n ih =>
      intro idx buf ev hev
      rcases hres : (deployFunction projectRef slug e i vj (net idx) buf).2.2
        with u | er
      · rw [retryUpload_succ_err projectRef slug e i vj net n idx buf u hres] at hev
        simp only [List.mem_append] at hev
        rcases hev with hev | hev
        · exact deployFunction_locators projectRef slug e i vj (net idx) buf ev hev
        · exact ih (idx + 1) (deployFunction projectRef slug e i vj (net idx) buf).2.1 ev hev
      · rw [retryUpload_succ_ok projectRef slug e i vj net n idx buf er hres] at hev
        exact deployFunction_locators projectRef slug e i vj (net idx) buf ev hev

/-! ### Lemmas about bundling and `deployOne` -/

/-- `bundleFunction` emits exactly one bundler invocation, whatever the
outcome. -/
theorem bundleFunction_trace (slug hostImportMapPath dockerFuncDir : String)
    (compress : Bytes → Bytes) (env : BundleEnv) :
    (bundleFunction slug hostImportMapPath dockerFuncDir compress env).1 =
      [Event.bundleInvoked slug] := by
  rcases env with ⟨mk, bind, dr, oo, cp⟩
  rcases mk with m | u <;>
    rcases bind with m2 | p <;>
      rcases dr with m3 | u3 <;>
        rcases oo with m4 | bs <;>
          by_cases himp : hostImportMapPath = "" <;>
            rcases cp <;>
              simp [bundleFunction, himp]

/-- With no import-map override and a successful build environment,
`bundleFunction` yields the wrapped artifact with the default
import-map locator and the canonical entrypoint locator. -/
theorem bundleFunction_success_default (slug dockerFuncDir : String)
    (compress : Bytes → Bytes) (env : BundleEnv) (X : Bytes)
    (hmk : env.mkdir = .ok ()) (hdr : env.dockerRun = .ok ())
    (hout : env.openOutput = .ok X) (hcp : env.copyOk = true) :
    (bundleFunction slug "" dockerFuncDir compress env).2 =
      .ok { compressedBody := magicBytes ++ compress X
            entrypointPath := pathJoin (pathJoin dockerFuncDir slug) "index.ts"
            importMapPath := pathJoin dockerFuncDir "import_map.json" } := by
  simp [bundleFunction, hmk, hdr, hout, hcp]

/-- A bundle failure aborts `deployOne` before any upload attempt: the
trace is the lone bundler invocation and the bundle error is returned. -/
theorem deployOne_bundle_error (slug projectRef dockerFuncDir : String)
    (fc : FunctionConfig) (compress : Bytes → Bytes) (benv : BundleEnv)
    (net : Nat → AttemptEnv) (e : BundleError)
    (he : (bundleFunction slug fc.importMap dockerFuncDir compress benv).2 =
      .error e) :
    deployOne slug projectRef dockerFuncDir fc compress benv net =
      ([Event.bundleInvoked slug], .error (.bundle e)) := by
  have htr := bundleFunction_trace slug fc.importMap dockerFuncDir compress benv
  have hbf : bundleFunction slug fc.importMap dockerFuncDir compress benv =
      ([Event.bundleInvoked slug], .error e) := by
    rw [← htr, ← he]
  simp [deployOne, hbf]

/-- With a successfully bundled artifact, `deployOne` runs the retry
loop on the artifact's compressed body and `file://` locators. -/
theorem deployOne_bundle_ok (slug projectRef dockerFuncDir : String)
    (fc : FunctionConfig) (compress : Bytes → Bytes) (benv : BundleEnv)
    (net : Nat → AttemptEnv) (art : eszipFunction)
    (ha : (bundleFunction slug fc.importMap dockerFuncDir compress benv).2 =
      .ok art) :
    deployOne slug projectRef dockerFuncDir fc compress benv net =
      ([Event.bundleInvoked slug] ++
        (retryUpload projectRef slug ("file://" ++ art.entrypointPath)
          ("file://" ++ art.importMapPath) fc.verifyJWT net maxUploadRetries 0
          art.compressedBody).1,
       (retryUpload projectRef slug ("file://" ++ art.entrypointPath)
          ("file://" ++ art.importMapPath) fc.verifyJWT net maxUploadRetries 0
          art.compressedBody).2.mapError .upload) := by
  have htr := bundleFunction_trace slug fc.importMap dockerFuncDir compress benv
  have hbf : bundleFunction slug fc.importMap dockerFuncDir compress benv =
      ([Event.bundleInvoked slug], .ok art) := by
    rw [← htr, ← ha]
  simp [deployOne, hbf]

/-- `deployOne` invokes the bundler exactly once, whatever happens. -/
theorem deployOne_bundle_once (slug projectRef dockerFuncDir : String)
    (fc : FunctionConfig) (compress : Bytes → Bytes) (benv : BundleEnv)
    (net : Nat → AttemptEnv) :
    (deployOne slug projectRef dockerFuncDir fc compress benv net).1.countP
      Event.isBundle = 1 := by
  rcases hres : (bundleFunction slug fc.importMap dockerFuncDir compress benv).2
    with e | art
  · rw [deployOne_bundle_error slug projectRef dockerFuncDir fc compress benv net e hres]
    simp [Event.isBundle]
  · rw [deployOne_bundle_ok slug projectRef dockerFuncDir fc compress benv net art hres]
    simp only [List.countP_append]
    rw [retryUpload_no_bundle]
    simp [Event.isBundle]

/-! ### Lemmas about `deployAll`, validation and the entry points -/

/-- A failing head slug stops the batch at once. -/
theorem deployAll_cons_err (projectRef dockerFuncDir : String)
    (fc : String → FunctionConfig) (compress : Bytes → Bytes)
    (benv : String → BundleEnv) (net : String → Nat → AttemptEnv)
    (slug : String) (rest : List String) (err : DeployOneError)
    (h : (deployOne slug projectRef dockerFuncDir (fc slug) compress
      (benv slug) (net slug)).2 = .error err) :
    deployAll projectRef dockerFuncDir fc compress benv net (slug :: rest) =
      ((deployOne slug projectRef dockerFuncDir (fc slug) compress
        (benv slug) (net slug)).1, .error err) := by
  simp only [deployAll]
  rw [h]

/-- A succeeding head slug is followed by the rest of the batch. -/
theorem deployAll_cons_ok (projectRef dockerFuncDir : String)
    (fc : String → FunctionConfig) (compress : Bytes → Bytes)
    (benv : String → BundleEnv) (net : String → Nat → AttemptEnv)
    (slug : String) (rest : List String) (u : Unit)
    (h : (deployOne slug projectRef dockerFuncDir (fc slug) compress
      (benv slug) (net slug)).2 = .ok u) :
    deployAll projectRef dockerFuncDir fc compress benv net (slug :: rest) =
      ((deployOne slug projectRef dockerFuncDir (fc slug) compress
          (benv slug) (net slug)).1 ++
        (deployAll projectRef dockerFuncDir fc compress benv net rest).1,
       (deployAll projectRef dockerFuncDir fc compress benv net rest).2) := by
  simp only [deployAll]
  rw [h]

/-- The first slug failing the naming pattern aborts validation with
exactly that slug's invalid-slug error. -/
theorem validateAll_first_invalid :
    ∀ (pre : List String) (s : String) (post : List String),
      (∀ t ∈ pre, FuncSlugPattern t = true) → FuncSlugPattern s = false →
      validateAll (pre ++ s :: post) = .error (.invalidSlug s) := by
  intro pre
  induction pre with
  | nil =>
      intro s post _ hs
      simp [validateAll, ValidateFunctionSlug, hs]
  | cons a l ih =>
      intro s post hpre hs
      have ha : FuncSlugPattern a = true := hpre a (by simp)
      simp only [List.cons_append, validateAll, ValidateFunctionSlug, ha, if_true]
      exact ih s post (fun t ht => hpre t (by simp [ht])) hs

/-- A list of slugs all matching the pattern validates successfully. -/
theorem validateAll_all_valid :
    ∀ (slugs : List String), (∀ t ∈ slugs, FuncSlugPattern t = true) →
      validateAll slugs = .ok () := by
  intro slugs
  induction slugs with
  | nil => intro _; rfl
  | cons a l ih =>
      intro h
      have ha : FuncSlugPattern a = true := h a (by simp)
      simp only [validateAll, ValidateFunctionSlug, ha, if_true]
      exact ih (fun t ht => h t (by simp [ht]))

/-- Discovery keeps, in order, exactly the derived directory names that
match the pattern. -/
theorem getFunctionSlugs_filter (paths : List String) :
    (GetFunctionSlugs (.ok paths)).2 =
      .ok ((paths.map slugOfPath).filter FuncSlugPattern) := by
  simp only [GetFunctionSlugs]
  congr 1
  induction paths with
  | nil => rfl
  | cons p ps ih =>
      by_cases h : FuncSlugPattern (slugOfPath p) = true <;>
        simp_all [List.filterMap_cons, List.filter_cons]

/-- `Run` on an explicit slug list whose validation fails: the config
has been loaded from the filesystem, then the call stops with the
validation error — no discovery, no deployment, no network call. -/
theorem Run_validation_error (slug0 : String) (rest : List String)
    (projectRef dockerFuncDir : String)
    (globResult : Except String (List String)) (fc : String → FunctionConfig)
    (compress : Bytes → Bytes) (benv : String → BundleEnv)
    (net : String → Nat → AttemptEnv) (err : RunError)
    (hbad : validateAll (slug0 :: rest) = .error err) :
    Run (slug0 :: rest) projectRef dockerFuncDir (.ok ()) globResult fc
        compress benv net =
      ([Event.fsAccess "loadConfig"], .error err) := by
  simp only [Run, LoadConfigFS]
  rw [hbad]

/-- `Run` without explicit slugs when discovery succeeds with zero
slugs: the no-functions error, after only the config load and the glob. -/
theorem Run_discovery_empty (projectRef dockerFuncDir : String)
    (globResult : Except String (List String)) (fc : String → FunctionConfig)
    (compress : Bytes → Bytes) (benv : String → BundleEnv)
    (net : String → Nat → AttemptEnv)
    (hglob : (GetFunctionSlugs globResult).2 = .ok []) :
    Run [] projectRef dockerFuncDir (.ok ()) globResult fc compress benv net =
      ([Event.fsAccess "loadConfig", Event.fsAccess "glob"],
       .error .noFunctionsFound) := by
  simp only [Run, LoadConfigFS]
  rw [hglob]
  rfl

/-- `RunDefault` when discovery succeeds with zero slugs: no error and
no deployment — the discovery `err` returned at deploy.go:58 is `nil`. -/
theorem RunDefault_discovery_empty (projectRef dockerFuncDir : String)
    (globResult : Except String (List String)) (fc : String → FunctionConfig)
    (compress : Bytes → Bytes) (benv : String → BundleEnv)
    (net : String → Nat → AttemptEnv)
    (hglob : (GetFunctionSlugs globResult).2 = .ok []) :
    RunDefault projectRef dockerFuncDir globResult fc compress benv net =
      ([Event.fsAccess "glob"], .ok ()) := by
  simp only [RunDefault]
  rw [hglob]
  rfl

/-! ### Claim theorems -/

/-- **C1**: For every single upload attempt of `deployFunction`: if the
probe returns 404, exactly one create call is issued and no update
call; if the probe returns 200, exactly one update call is issued and
no create call; if the probe returns any other status, neither create
nor update is issued and the attempt fails with an error carrying the
raw response body; and each retry attempt starts with a fresh probe —
when the retry loop ends in an error, all `fuel + 1` attempts ran and
each issued exactly one probe of its own (no protocol state persists
across attempts). -/
theorem deployFunction_probe_protocol
    (projectRef slug e i : String) (vj : Bool) (env : AttemptEnv)
    (buf : Bytes) (r : HttpResponse) (net : Nat → AttemptEnv)
    (hp : env.probe = NetResult.response r) :
    (r.status = 404 →
      (deployFunction projectRef slug e i vj env buf).1.countP Event.isCreate = 1 ∧
      (deployFunction projectRef slug e i vj env buf).1.countP Event.isUpdate = 0) ∧
    (r.status = 200 →
      (deployFunction projectRef slug e i vj env buf).1.countP Event.isUpdate = 1 ∧
      (deployFunction projectRef slug e i vj env buf).1.countP Event.isCreate = 0) ∧
    (r.status ≠ 404 → r.status ≠ 200 →
      (deployFunction projectRef slug e i vj env buf).1.countP Event.isCreate = 0 ∧
      (deployFunction projectRef slug e i vj env buf).1.countP Event.isUpdate = 0 ∧
      (deployFunction projectRef slug e i vj env buf).2.2 =
        .error (.unexpectedStatus r.rawBody)) ∧
    (∀ fuel idx buf0 err,
      (retryUpload projectRef slug e i vj net fuel idx buf0).2 = .error err →
      (retryUpload projectRef slug e i vj net fuel idx buf0).1.countP
        Event.isProbe = fuel + 1) := by
  refine ⟨?_, ?_, ?_, retryUpload_error_probes projectRef slug e i vj net⟩
  · intro h4
    rcases hc : env.create with m | c
    · rw [deployFunction_probe_404_transport projectRef slug e i vj env buf r m hp h4 hc]
      simp [Event.isCreate, Event.isUpdate]
    · rw [deployFunction_probe_404 projectRef slug e i vj env buf r c hp h4 hc]
      simp [Event.isCreate, Event.isUpdate]
  · intro h2
    rcases hu : env.update with m | u
    · rw [deployFunction_probe_200_transport projectRef slug e i vj env buf r m hp h2 hu]
      simp [Event.isCreate, Event.isUpdate]
    · rw [deployFunction_probe_200 projectRef slug e i vj env buf r u hp h2 hu]
      simp [Event.isCreate, Event.isUpdate]
  · intro h4 h2
    rw [deployFunction_probe_unexpected projectRef slug e i vj env buf r hp h4 h2]
    simp [Event.isCreate, Event.isUpdate]

/-- Witness for C1: a probe answered 503 issues neither create nor
update and fails with the raw body; retrying that remote with budget 3
issues four fresh probes. -/
theorem deployFunction_probe_protocol_witness :
    (deployFunction "proj" "fn" "e" "i" true
      ⟨.response ⟨503, false, "unavailable"⟩, .response ⟨201, true, ""⟩,
       .response ⟨200, true, ""⟩⟩ [1, 2]).1.countP Event.isCreate = 0 ∧
    (deployFunction "proj" "fn" "e" "i" true
      ⟨.response ⟨503, false, "unavailable"⟩, .response ⟨201, true, ""⟩,
       .response ⟨200, true, ""⟩⟩ [1, 2]).1.countP Event.isUpdate = 0 ∧
    (deployFunction "proj" "fn" "e" "i" true
      ⟨.response ⟨503, false, "unavailable"⟩, .response ⟨201, true, ""⟩,
       .response ⟨200, true, ""⟩⟩ [1, 2]).2.2 =
      .error (.unexpectedStatus "unavailable") ∧
    (retryUpload "proj" "fn" "e" "i" true
      (fun _ => ⟨.response ⟨503, false, "unavailable"⟩, .response ⟨201, true, ""⟩,
                 .response ⟨200, true, ""⟩⟩) 3 0 [1, 2]).1.countP
      Event.isProbe = 3 + 1 := by
  have h := deployFunction_probe_protocol "proj" "fn" "e" "i" true
    ⟨.response ⟨503, false, "unavailable"⟩, .response ⟨201, true, ""⟩,
     .response ⟨200, true, ""⟩⟩ [1, 2] ⟨503, false, "unavailable"⟩
    (fun _ => ⟨.response ⟨503, false, "unavailable"⟩, .response ⟨201, true, ""⟩,
               .response ⟨200, true, ""⟩⟩) rfl
  have h3 := h.2.2.1 (by decide) (by decide)
  exact ⟨h3.1, h3.2.1, h3.2.2,
    h.2.2.2 3 0 [1, 2] (.unexpectedStatus "unavailable") (by decide)⟩

/-- **C8**: For every upload attempt: the create request carries slug,
name equal to the slug, the verify-JWT flag, the import-map and
entrypoint locators and the artifact body, and succeeds iff the
response is a 201 with a parsed success body, failing otherwise with an
error carrying the raw response body; the update request carries the
same metadata without slug/name body fields (the slug only addresses
the target) and succeeds iff the response is a 200 with a parsed
success body, failing otherwise with an error carrying the raw
response body. -/
theorem deployFunction_request_contract
    (projectRef slug e i : String) (vj : Bool) (env : AttemptEnv)
    (buf : Bytes) (r : HttpResponse) (hp : env.probe = NetResult.response r) :
    (∀ c, r.status = 404 → env.create = .response c →
      (deployFunction projectRef slug e i vj env buf).1 =
        [.probe projectRef slug,
         .create projectRef ⟨slug, slug, vj, i, e, eszipContentType, buf⟩] ∧
      ((deployFunction projectRef slug e i vj env buf).2.2 = .ok () ↔
        (c.status = 201 ∧ c.parsedOk = true)) ∧
      (¬ (c.status = 201 ∧ c.parsedOk = true) →
        (deployFunction projectRef slug e i vj env buf).2.2 =
          .error (.createFailed c.rawBody))) ∧
    (∀ u, r.status = 200 → env.update = .response u →
      (deployFunction projectRef slug e i vj env buf).1 =
        [.probe projectRef slug,
         .update projectRef ⟨slug, vj, i, e, eszipContentType, buf⟩] ∧
      ((deployFunction projectRef slug e i vj env buf).2.2 = .ok () ↔
        (u.status = 200 ∧ u.parsedOk = true)) ∧
      (¬ (u.status = 200 ∧ u.parsedOk = true) →
        (deployFunction projectRef slug e i vj env buf).2.2 =
          .error (.updateFailed u.rawBody))) := by
  constructor
  · intro c h4 hc
    rw [deployFunction_probe_404 projectRef slug e i vj env buf r c hp h4 hc]
    by_cases hok : c.status = 201 ∧ c.parsedOk = true <;> simp [hok]
  · intro u h2 hu
    rw [deployFunction_probe_200 projectRef slug e i vj env buf r u hp h2 hu]
    by_cases hok : u.status = 200 ∧ u.parsedOk = true <;> simp [hok]

/-- Witness for C8: a 404 probe followed by a parsed 201 create
succeeds with exactly the documented request; a 200 probe followed by
an unparseable update response fails with the raw update body. -/
theorem deployFunction_request_contract_witness :
    (deployFunction "proj" "fn" "e" "i" true
      ⟨.response ⟨404, false, ""⟩, .response ⟨201, true, "{}"⟩,
       .response ⟨200, true, ""⟩⟩ [7]).1 =
      [.probe "proj" "fn",
       .create "proj" ⟨"fn", "fn", true, "i", "e", eszipContentType, [7]⟩] ∧
    (deployFunction "proj" "fn" "e" "i" true
      ⟨.response ⟨404, false, ""⟩, .response ⟨201, true, "{}"⟩,
       .response ⟨200, true, ""⟩⟩ [7]).2.2 = .ok () ∧
    (deployFunction "proj" "fn" "e" "i" false
      ⟨.response ⟨200, true, "meta"⟩, .response ⟨201, true, ""⟩,
       .response ⟨500, false, "oops"⟩⟩ [8]).1 =
      [.probe "proj" "fn",
       .update "proj" ⟨"fn", false, "i", "e", eszipContentType, [8]⟩] ∧
    (deployFunction "proj" "fn" "e" "i" false
      ⟨.response ⟨200, true, "meta"⟩, .response ⟨201, true, ""⟩,
       .response ⟨500, false, "oops"⟩⟩ [8]).2.2 =
      .error (.updateFailed "oops") := by
  have hc := (deployFunction_request_contract "proj" "fn" "e" "i" true
    ⟨.response ⟨404, false, ""⟩, .response ⟨201, true, "{}"⟩,
     .response ⟨200, true, ""⟩⟩ [7] ⟨404, false, ""⟩ rfl).1
    ⟨201, true, "{}"⟩ rfl rfl
  have hu := (deployFunction_request_contract "proj" "fn" "e" "i" false
    ⟨.response ⟨200, true, "meta"⟩, .response ⟨201, true, ""⟩,
     .response ⟨500, false, "oops"⟩⟩ [8] ⟨200, true, "meta"⟩ rfl).2
    ⟨500, false, "oops"⟩ rfl rfl
  exact ⟨hc.1, hc.2.1.mpr (by decide), hu.1, hu.2.2 (by decide)⟩

/-- **C2** fails on the code: `deployOne` passes the one shared
`bytes.Buffer` to every retry attempt, and an attempt that issues a
create/update drains it, so a retry after a failed create sends the
empty remainder, not the bundled artifact bytes.  Concretely: bundler
output `[1,2,3]`, brotli modelled as the identity, a remote that always
answers the probe with 404 and the create with a 500: the four
attempts' request bodies are the full artifact once and then empty
three times, while the artifact bytes are non-empty. -/
theorem deployOne_retry_sends_drained_body :
    ((deployOne "fn" "proj" "/funcs" ⟨"", true⟩ id
        ⟨.ok (), .ok "", .ok (), .ok [1, 2, 3], true⟩
        (fun _ => ⟨.response ⟨404, false, ""⟩, .response ⟨500, false, "boom"⟩,
                   .response ⟨200, true, ""⟩⟩)).1.filterMap Event.sentBody =
      [magicBytes ++ [1, 2, 3], [], [], []]) ∧
    magicBytes ++ [1, 2, 3] ≠ ([] : Bytes) ∧
    ((deployOne "fn" "proj" "/funcs" ⟨"", true⟩ id
        ⟨.ok (), .ok "", .ok (), .ok [1, 2, 3], true⟩
        (fun _ => ⟨.response ⟨404, false, ""⟩, .response ⟨500, false, "boom"⟩,
                   .response ⟨200, true, ""⟩⟩)).2 =
      .error (.upload (.createFailed "boom"))) := by
  decide

/-- **C3**: `deployAll` processes slugs strictly sequentially in the
exact order provided; if the slug `s` after a succeeding block `pre`
fails, the batch result is exactly the traces of `pre` followed by
`s`'s trace — slugs of `post` are never attempted, already-deployed
slugs keep their events (no rollback) — and `s`'s error is returned;
if every slug succeeds the batch succeeds with all traces in order. -/
theorem deployAll_sequential_abort (projectRef dockerFuncDir : String)
    (fc : String → FunctionConfig) (compress : Bytes → Bytes)
    (benv : String → BundleEnv) (net : String → Nat → AttemptEnv) :
    (∀ (pre : List String) (s : String) (post : List String)
       (err : DeployOneError),
      (∀ t ∈ pre, (deployOne t projectRef dockerFuncDir (fc t) compress
        (benv t) (net t)).2 = .ok ()) →
      (deployOne s projectRef dockerFuncDir (fc s) compress
        (benv s) (net s)).2 = .error err →
      deployAll projectRef dockerFuncDir fc compress benv net
          (pre ++ s :: post) =
        ((pre.map fun t => (deployOne t projectRef dockerFuncDir (fc t)
            compress (benv t) (net t)).1).flatten ++
          (deployOne s projectRef dockerFuncDir (fc s) compress
            (benv s) (net s)).1,
         .error err)) ∧
    (∀ slugs : List String,
      (∀ t ∈ slugs, (deployOne t projectRef dockerFuncDir (fc t) compress
        (benv t) (net t)).2 = .ok ()) →
      deployAll projectRef dockerFuncDir fc compress benv net slugs =
        ((slugs.map fun t => (deployOne t projectRef dockerFuncDir (fc t)
            compress (benv t) (net t)).1).flatten,
         .ok ())) := by
  constructor
  · intro pre
    induction pre with
    | nil =>
        intro s post err _ hs
        simp only [List.nil_append, List.map_nil, List.flatten_nil]
        exact deployAll_cons_err projectRef dockerFuncDir fc compress benv net
          s post err hs
    | cons a l ih =>
        intro s post err hpre hs
        have ha := hpre a (by simp)
        rw [List.cons_append,
          deployAll_cons_ok projectRef dockerFuncDir fc compress benv net a
            (l ++ s :: post) () ha,
          ih s post err (fun t ht => hpre t (by simp [ht])) hs]
        simp [List.append_assoc]
  · intro slugs
    induction slugs with
    | nil => intro _; rfl
    | cons a l ih =>
        intro h
        have ha := h a (by simp)
        rw [deployAll_cons_ok projectRef dockerFuncDir fc compress benv net a
            l () ha,
          ih (fun t ht => h t (by simp [ht]))]
        simp

/-- Witness for C3: slugs `[a, b, c]` where `b`'s remote always
answers 503, so `b` exhausts its retries: the batch stops at `b` with
`b`'s error, after `a`'s trace and `b`'s trace only. -/
theorem deployAll_sequential_abort_witness :
    deployAll "proj" "/funcs" (fun _ => ⟨"", true⟩) id
        (fun _ => ⟨.ok (), .ok "", .ok (), .ok [1], true⟩)
        (fun s _ =>
          if s = "b" then
            ⟨.response ⟨503, false, "down"⟩, .response ⟨201, true, ""⟩,
             .response ⟨200, true, ""⟩⟩
          else
            ⟨.response ⟨404, false, ""⟩, .response ⟨201, true, ""⟩,
             .response ⟨200, true, ""⟩⟩)
        ["a", "b", "c"] =
      ((["a"].map fun t => (deployOne t "proj" "/funcs" ⟨"", true⟩ id
          ⟨.ok (), .ok "", .ok (), .ok [1], true⟩
          (fun _ =>
            if t = "b" then
              ⟨.response ⟨503, false, "down"⟩, .response ⟨201, true, ""⟩,
               .response ⟨200, true, ""⟩⟩
            else
              ⟨.response ⟨404, false, ""⟩, .response ⟨201, true, ""⟩,
               .response ⟨200, true, ""⟩⟩)).1).flatten ++
        (deployOne "b" "proj" "/funcs" ⟨"", true⟩ id
          ⟨.ok (), .ok "", .ok (), .ok [1], true⟩
          (fun _ =>
            ⟨.response ⟨503, false, "down"⟩, .response ⟨201, true, ""⟩,
             .response ⟨200, true, ""⟩⟩)).1,
       .error (.upload (.unexpectedStatus "down"))) := by
  have h := (deployAll_sequential_abort "proj" "/funcs" (fun _ => ⟨"", true⟩) id
    (fun _ => ⟨.ok (), .ok "", .ok (), .ok [1], true⟩)
    (fun s _ =>
      if s = "b" then
        ⟨.response ⟨503, false, "down"⟩, .response ⟨201, true, ""⟩,
         .response ⟨200, true, ""⟩⟩
      else
        ⟨.response ⟨404, false, ""⟩, .response ⟨201, true, ""⟩,
         .response ⟨200, true, ""⟩⟩)).1
    ["a"] "b" ["c"] (.upload (.unexpectedStatus "down"))
    (by decide) (by decide)
  exact h

/-- **C4**: the compressed artifact is exactly the fixed 4-byte ASCII
magic tag (`"EZBR"`, bytes `[69, 90, 66, 82]`) followed by the brotli
stream of the raw bundle bytes: for any raw bytes `X` and any brotli
decoder inverting the encoder, the artifact's first 4 bytes are the
magic tag and decoding the bytes from offset 4 yields exactly `X`. -/
theorem bundleFunction_wrap_roundtrip
    (compress decompress : Bytes → Bytes)
    (hinv : ∀ b, decompress (compress b) = b)
    (slug dockerFuncDir : String) (env : BundleEnv) (X : Bytes)
    (hmk : env.mkdir = .ok ()) (hdr : env.dockerRun = .ok ())
    (hX : env.openOutput = .ok X) (hcp : env.copyOk = true) :
    ∀ art, (bundleFunction slug "" dockerFuncDir compress env).2 = .ok art →
      art.compressedBody.take 4 = magicBytes ∧
      decompress (art.compressedBody.drop 4) = X ∧
      magicBytes = [69, 90, 66, 82] := by
  intro art hart
  rw [bundleFunction_success_default slug dockerFuncDir compress env X hmk hdr
    hX hcp] at hart
  injection hart with hart
  subst hart
  have hm : magicBytes = [69, 90, 66, 82] := by decide
  refine ⟨?_, ?_, hm⟩
  · show (magicBytes ++ compress X).take 4 = magicBytes
    rw [hm]
    rfl
  · show decompress ((magicBytes ++ compress X).drop 4) = X
    rw [hm]
    exact hinv X

/-- Witness for C4 at bundler output `[1, 2, 3]` with the identity
encoder/decoder pair. -/
theorem bundleFunction_wrap_roundtrip_witness :
    ({ compressedBody := [69, 90, 66, 82, 1, 2, 3], entrypointPath :=
        "/funcs/fn/index.ts", importMapPath := "/funcs/import_map.json" } :
      eszipFunction).compressedBody.take 4 = magicBytes ∧
    id (({ compressedBody := [69, 90, 66, 82, 1, 2, 3], entrypointPath :=
        "/funcs/fn/index.ts", importMapPath := "/funcs/import_map.json" } :
      eszipFunction).compressedBody.drop 4) = [1, 2, 3] ∧
    magicBytes = [69, 90, 66, 82] :=
  bundleFunction_wrap_roundtrip id id (fun _ => rfl) "fn" "/funcs"
    ⟨.ok (), .ok "", .ok (), .ok [1, 2, 3], true⟩ [1, 2, 3]
    rfl rfl rfl rfl
    { compressedBody := [69, 90, 66, 82, 1, 2, 3]
      entrypointPath := "/funcs/fn/index.ts"
      importMapPath := "/funcs/import_map.json" }
    (by decide)

/-- **C5**: the upload phase of `deployOne` is wrapped in a retry
policy with exponential backoff, at most 3 retries and the caller's
cancellation context (recorded structurally from deploy.go:225), so at
most `3 + 1` upload attempts (probes) occur; the bundler is invoked
exactly once per call, and a bundle failure aborts the slug
immediately — the trace is the lone bundler invocation, with no upload
attempt, and the bundle error is returned. -/
theorem deployOne_retry_policy (slug projectRef dockerFuncDir : String)
    (fc : FunctionConfig) (compress : Bytes → Bytes) (benv : BundleEnv)
    (net : Nat → AttemptEnv) :
    deployOnePolicy =
      { kind := .exponential, maxRetries := 3, contextBound := true } ∧
    (deployOne slug projectRef dockerFuncDir fc compress benv net).1.countP
      Event.isProbe ≤ maxUploadRetries + 1 ∧
    (deployOne slug projectRef dockerFuncDir fc compress benv net).1.countP
      Event.isBundle = 1 ∧
    (∀ e, (bundleFunction slug fc.importMap dockerFuncDir compress benv).2 =
        .error e →
      deployOne slug projectRef dockerFuncDir fc compress benv net =
        ([Event.bundleInvoked slug], .error (.bundle e))) := by
  refine ⟨rfl, ?_,
    deployOne_bundle_once slug projectRef dockerFuncDir fc compress benv net,
    fun e he =>
      deployOne_bundle_error slug projectRef dockerFuncDir fc compress benv
        net e he⟩
  rcases hres : (bundleFunction slug fc.importMap dockerFuncDir compress benv).2
    with e | art
  · rw [deployOne_bundle_error slug projectRef dockerFuncDir fc compress benv
      net e hres]
    simp [Event.isProbe]
  · rw [deployOne_bundle_ok slug projectRef dockerFuncDir fc compress benv
      net art hres]
    simp only [List.countP_append]
    have h1 : List.countP Event.isProbe [Event.bundleInvoked slug] = 0 := by
      simp [Event.isProbe]
    have h2 := retryUpload_probes_le projectRef slug
      ("file://" ++ art.entrypointPath) ("file://" ++ art.importMapPath)
      fc.verifyJWT net maxUploadRetries 0 art.compressedBody
    omega

/-- Witness for C5: a bundler exiting nonzero aborts the slug with no
upload attempt at all, and the attempt bound holds there. -/
theorem deployOne_retry_policy_witness :
    deployOnePolicy =
      { kind := .exponential, maxRetries := 3, contextBound := true } ∧
    (deployOne "fn" "proj" "/funcs" ⟨"", true⟩ id
      ⟨.ok (), .ok "", .error "exit status 1", .ok [], true⟩
      (fun _ => ⟨.response ⟨404, false, ""⟩, .response ⟨201, true, ""⟩,
                 .response ⟨200, true, ""⟩⟩)).1.countP
      Event.isProbe ≤ maxUploadRetries + 1 ∧
    deployOne "fn" "proj" "/funcs" ⟨"", true⟩ id
        ⟨.ok (), .ok "", .error "exit status 1", .ok [], true⟩
        (fun _ => ⟨.response ⟨404, false, ""⟩, .response ⟨201, true, ""⟩,
                   .response ⟨200, true, ""⟩⟩) =
      ([Event.bundleInvoked "fn"], .error (.bundle (.dockerError "exit status 1"))) := by
  have h := deployOne_retry_policy "fn" "proj" "/funcs" ⟨"", true⟩ id
    ⟨.ok (), .ok "", .error "exit status 1", .ok [], true⟩
    (fun _ => ⟨.response ⟨404, false, ""⟩, .response ⟨201, true, ""⟩,
               .response ⟨200, true, ""⟩⟩)
  exact ⟨h.1, h.2.1, h.2.2.2 (.dockerError "exit status 1") (by decide)⟩

/-- **C6** as stated fails on the code: `Run` loads the project config
from the filesystem (deploy.go:33) before validating the explicit
slugs, so on an invalid slug a spy filesystem has already recorded one
interaction — not zero — by the time the invalid-slug error is
returned. -/
theorem Run_invalid_slug_fs_spy_counterexample :
    ((Run ["@"] "proj" "/funcs" (.ok ()) (.ok [])
        (fun _ => ⟨"", true⟩) id
        (fun _ => ⟨.ok (), .ok "", .ok (), .ok [], true⟩)
        (fun _ _ => ⟨.response ⟨404, false, ""⟩, .response ⟨201, true, ""⟩,
                     .response ⟨200, true, ""⟩⟩)).2 =
      .error (.invalidSlug "@")) ∧
    ((Run ["@"] "proj" "/funcs" (.ok ()) (.ok [])
        (fun _ => ⟨"", true⟩) id
        (fun _ => ⟨.ok (), .ok "", .ok (), .ok [], true⟩)
        (fun _ _ => ⟨.response ⟨404, false, ""⟩, .response ⟨201, true, ""⟩,
                     .response ⟨200, true, ""⟩⟩)).1.countP Event.isFs = 1) := by
  decide

/-- **C6** (amended): with the config load succeeding, a slug list
whose validation fails makes `Run` fail with that invalid-slug error
before any network call and before any discovery or deployment
filesystem access — the whole trace is the single config-load
filesystem read, so the network spy records zero interactions (the
filesystem spy records exactly the config read). -/
theorem Run_invalid_slug_before_network (slugs : List String)
    (projectRef dockerFuncDir : String)
    (globResult : Except String (List String)) (fc : String → FunctionConfig)
    (compress : Bytes → Bytes) (benv : String → BundleEnv)
    (net : String → Nat → AttemptEnv) (s : String)
    (hbad : validateAll slugs = .error (.invalidSlug s)) :
    (Run slugs projectRef dockerFuncDir (.ok ()) globResult fc compress benv
      net).2 = .error (.invalidSlug s) ∧
    (Run slugs projectRef dockerFuncDir (.ok ()) globResult fc compress benv
      net).1 = [Event.fsAccess "loadConfig"] ∧
    (Run slugs projectRef dockerFuncDir (.ok ()) globResult fc compress benv
      net).1.countP Event.isApi = 0 := by
  cases slugs with
  | nil => exact absurd hbad (by simp [validateAll])
  | cons a rest =>
      rw [Run_validation_error a rest projectRef dockerFuncDir globResult fc
        compress benv net (.invalidSlug s) hbad]
      exact ⟨rfl, rfl, rfl⟩

/-- Witness for the amended C6 at the slug list `["ok-slug", "@"]`. -/
theorem Run_invalid_slug_before_network_witness :
    (Run ["ok-slug", "@"] "proj" "/funcs" (.ok ()) (.ok [])
      (fun _ => ⟨"", true⟩) id
      (fun _ => ⟨.ok (), .ok "", .ok (), .ok [], true⟩)
      (fun _ _ => ⟨.response ⟨404, false, ""⟩, .response ⟨201, true, ""⟩,
                   .response ⟨200, true, ""⟩⟩)).2 =
      .error (.invalidSlug "@") ∧
    (Run ["ok-slug", "@"] "proj" "/funcs" (.ok ()) (.ok [])
      (fun _ => ⟨"", true⟩) id
      (fun _ => ⟨.ok (), .ok "", .ok (), .ok [], true⟩)
      (fun _ _ => ⟨.response ⟨404, false, ""⟩, .response ⟨201, true, ""⟩,
                   .response ⟨200, true, ""⟩⟩)).1 =
      [Event.fsAccess "loadConfig"] ∧
    (Run ["ok-slug", "@"] "proj" "/funcs" (.ok ()) (.ok [])
      (fun _ => ⟨"", true⟩) id
      (fun _ => ⟨.ok (), .ok "", .ok (), .ok [], true⟩)
      (fun _ _ => ⟨.response ⟨404, false, ""⟩, .response ⟨201, true, ""⟩,
                   .response ⟨200, true, ""⟩⟩)).1.countP Event.isApi = 0 :=
  Run_invalid_slug_before_network ["ok-slug", "@"] "proj" "/funcs" (.ok [])
    (fun _ => ⟨"", true⟩) id
    (fun _ => ⟨.ok (), .ok "", .ok (), .ok [], true⟩)
    (fun _ _ => ⟨.response ⟨404, false, ""⟩, .response ⟨201, true, ""⟩,
                 .response ⟨200, true, ""⟩⟩)
    "@" (by decide)

/-- **C7** as stated fails on the code: when discovery succeeds with
zero slugs, `RunDefault` returns the discovery `err` — which is `nil`
(deploy.go:57-59) — so it succeeds instead of failing with a
no-functions-found error (it does attempt no deployment). -/
theorem RunDefault_empty_discovery_counterexample :
    ((RunDefault "proj" "/funcs" (.ok []) (fun _ => ⟨"", true⟩) id
        (fun _ => ⟨.ok (), .ok "", .ok (), .ok [], true⟩)
        (fun _ _ => ⟨.response ⟨404, false, ""⟩, .response ⟨201, true, ""⟩,
                     .response ⟨200, true, ""⟩⟩)).2 = .ok ()) ∧
    ((RunDefault "proj" "/funcs" (.ok []) (fun _ => ⟨"", true⟩) id
        (fun _ => ⟨.ok (), .ok "", .ok (), .ok [], true⟩)
        (fun _ _ => ⟨.response ⟨404, false, ""⟩, .response ⟨201, true, ""⟩,
                     .response ⟨200, true, ""⟩⟩)).1.countP Event.isApi = 0) := by
  decide

/-- **C7** (amended): when no explicit slugs are supplied and discovery
succeeds with zero slugs, `Run` fails with the no-functions-found error
while `RunDefault` returns success; in both cases no deployment is
attempted — the traces contain only the config-load and glob filesystem
events, no API call and no bundler invocation. -/
theorem no_functions_entry_points (projectRef dockerFuncDir : String)
    (globResult : Except String (List String)) (fc : String → FunctionConfig)
    (compress : Bytes → Bytes) (benv : String → BundleEnv)
    (net : String → Nat → AttemptEnv)
    (hglob : (GetFunctionSlugs globResult).2 = .ok []) :
    Run [] projectRef dockerFuncDir (.ok ()) globResult fc compress benv
        net =
      ([Event.fsAccess "loadConfig", Event.fsAccess "glob"],
       .error .noFunctionsFound) ∧
    RunDefault projectRef dockerFuncDir globResult fc compress benv net =
      ([Event.fsAccess "glob"], .ok ()) := by
  exact ⟨Run_discovery_empty projectRef dockerFuncDir globResult fc compress
      benv net hglob,
    RunDefault_discovery_empty projectRef dockerFuncDir globResult fc compress
      benv net hglob⟩

/-- Witness for the amended C7: a source tree whose glob finds only a
directory name failing the pattern, so discovery yields zero slugs. -/
theorem no_functions_entry_points_witness :
    Run [] "proj" "/funcs" (.ok ())
        (.ok ["supabase/functions/not a slug/index.ts"])
        (fun _ => ⟨"", true⟩) id
        (fun _ => ⟨.ok (), .ok "", .ok (), .ok [], true⟩)
        (fun _ _ => ⟨.response ⟨404, false, ""⟩,
          .response ⟨201, true, ""⟩, .response ⟨200, true, ""⟩⟩) =
      ([Event.fsAccess "loadConfig", Event.fsAccess "glob"],
       .error .noFunctionsFound) ∧
    RunDefault "proj" "/funcs" (.ok ["supabase/functions/not a slug/index.ts"])
        (fun _ => ⟨"", true⟩) id
        (fun _ => ⟨.ok (), .ok "", .ok (), .ok [], true⟩)
        (fun _ _ => ⟨.response ⟨404, false, ""⟩,
          .response ⟨201, true, ""⟩, .response ⟨200, true, ""⟩⟩) =
      ([Event.fsAccess "glob"], .ok ()) :=
  no_functions_entry_points "proj" "/funcs"
    (.ok ["supabase/functions/not a slug/index.ts"])
    (fun _ => ⟨"", true⟩) id
    (fun _ => ⟨.ok (), .ok "", .ok (), .ok [], true⟩)
    (fun _ _ => ⟨.response ⟨404, false, ""⟩, .response ⟨201, true, ""⟩,
               .response ⟨200, true, ""⟩⟩)
    (by decide)

/-- **C9**: discovery returns the slugs derived from the parent
directory name of each entrypoint match, silently dropping — with no
error — every name failing the naming pattern; an explicit slug list is
validated against the same pattern and the first invalid slug aborts
the whole call (both at the validation loop and through `Run`). -/
theorem slug_discovery_and_validation :
    (∀ paths : List String,
      (GetFunctionSlugs (.ok paths)).2 =
        .ok ((paths.map slugOfPath).filter FuncSlugPattern)) ∧
    (∀ (pre : List String) (s : String) (post : List String),
      (∀ t ∈ pre, FuncSlugPattern t = true) → FuncSlugPattern s = false →
      validateAll (pre ++ s :: post) = .error (.invalidSlug s)) ∧
    (∀ (pre : List String) (s : String) (post : List String)
       (projectRef dockerFuncDir : String)
       (globResult : Except String (List String))
       (fc : String → FunctionConfig) (compress : Bytes → Bytes)
       (benv : String → BundleEnv) (net : String → Nat → AttemptEnv),
      (∀ t ∈ pre, FuncSlugPattern t = true) → FuncSlugPattern s = false →
      (Run (pre ++ s :: post) projectRef dockerFuncDir (.ok ()) globResult fc
        compress benv net).2 = .error (.invalidSlug s)) := by
  refine ⟨getFunctionSlugs_filter, validateAll_first_invalid, ?_⟩
  intro pre s post projectRef dockerFuncDir globResult fc compress benv net
    hpre hs
  have hbad := validateAll_first_invalid pre s post hpre hs
  cases pre with
  | nil =>
      rw [List.nil_append] at hbad ⊢
      rw [Run_validation_error s post projectRef dockerFuncDir globResult fc
        compress benv net (.invalidSlug s) hbad]
  | cons a l =>
      rw [List.cons_append] at hbad ⊢
      rw [Run_validation_error a (l ++ s :: post) projectRef dockerFuncDir
        globResult fc compress benv net (.invalidSlug s) hbad]

/-- Witness for C9: a tree with a valid, an invalid and another valid
function directory discovers exactly the two valid slugs in order, and
the explicit list `["good_slug", "bad slug", "later"]` aborts at
`"bad slug"`, also through `Run`. -/
theorem slug_discovery_and_validation_witness :
    (GetFunctionSlugs (.ok ["supabase/functions/foo/index.ts",
        "supabase/functions/not a slug/index.ts",
        "supabase/functions/bar-baz/index.ts"])).2 =
      .ok ["foo", "bar-baz"] ∧
    validateAll ["good_slug", "bad slug", "later"] =
      .error (.invalidSlug "bad slug") ∧
    (Run ["good_slug", "bad slug", "later"] "proj" "/funcs" (.ok ()) (.ok [])
      (fun _ => ⟨"", true⟩) id
      (fun _ => ⟨.ok (), .ok "", .ok (), .ok [], true⟩)
      (fun _ _ => ⟨.response ⟨404, false, ""⟩, .response ⟨201, true, ""⟩,
                   .response ⟨200, true, ""⟩⟩)).2 =
      .error (.invalidSlug "bad slug") := by
  have h := slug_discovery_and_validation
  refine ⟨?_, h.2.1 ["good_slug"] "bad slug" ["later"] (by decide) (by decide),
    h.2.2 ["good_slug"] "bad slug" ["later"] "proj" "/funcs" (.ok [])
      (fun _ => ⟨"", true⟩) id
      (fun _ => ⟨.ok (), .ok "", .ok (), .ok [], true⟩)
      (fun _ _ => ⟨.response ⟨404, false, ""⟩, .response ⟨201, true, ""⟩,
                   .response ⟨200, true, ""⟩⟩)
      (by decide) (by decide)⟩
  have h1 := h.1 ["supabase/functions/foo/index.ts",
    "supabase/functions/not a slug/index.ts",
    "supabase/functions/bar-baz/index.ts"]
  rw [h1]
  decide

/-- **C10**: with no import-map override, the bundled artifact's
import-map locator is the fixed default `<dockerFuncDir>/import_map.json`
(and its entrypoint locator is `<dockerFuncDir>/<slug>/index.ts`) — the
code sets this default unconditionally, with no check that any
import-map file exists — and every create/update request that
`deployOne` sends carries the non-empty `file://`-prefixed form of
those locators; the import-map URI is never omitted or empty. -/
theorem deployOne_default_import_map
    (slug projectRef dockerFuncDir : String) (fc : FunctionConfig)
    (compress : Bytes → Bytes) (benv : BundleEnv) (net : Nat → AttemptEnv)
    (X : Bytes) (hno : fc.importMap = "")
    (hmk : benv.mkdir = .ok ()) (hdr : benv.dockerRun = .ok ())
    (hX : benv.openOutput = .ok X) (hcp : benv.copyOk = true) :
    (bundleFunction slug fc.importMap dockerFuncDir compress benv).2 =
      .ok { compressedBody := magicBytes ++ compress X
            entrypointPath := pathJoin (pathJoin dockerFuncDir slug) "index.ts"
            importMapPath := pathJoin dockerFuncDir "import_map.json" } ∧
    (∀ ev ∈ (deployOne slug projectRef dockerFuncDir fc compress benv net).1,
      (∀ s, ev.sentImportMap = some s →
        s = "file://" ++ pathJoin dockerFuncDir "import_map.json") ∧
      (∀ s, ev.sentEntrypoint = some s →
        s = "file://" ++ pathJoin (pathJoin dockerFuncDir slug) "index.ts")) ∧
    "file://" ++ pathJoin dockerFuncDir "import_map.json" ≠ "" := by
  have hart : (bundleFunction slug fc.importMap dockerFuncDir compress benv).2 =
      .ok { compressedBody := magicBytes ++ compress X
            entrypointPath := pathJoin (pathJoin dockerFuncDir slug) "index.ts"
            importMapPath := pathJoin dockerFuncDir "import_map.json" } := by
    rw [hno]
    exact bundleFunction_success_default slug dockerFuncDir compress benv X
      hmk hdr hX hcp
  refine ⟨hart, ?_, ?_⟩
  · rw [deployOne_bundle_ok slug projectRef dockerFuncDir fc compress benv
      net _ hart]
    intro ev hev
    rcases List.mem_append.mp hev with hb | hr
    · simp only [List.mem_singleton] at hb
      subst hb
      exact ⟨fun s hs => by simp [Event.sentImportMap] at hs,
             fun s hs => by simp [Event.sentEntrypoint] at hs⟩
    · exact retryUpload_locators projectRef slug _ _ fc.verifyJWT net
        maxUploadRetries 0 _ ev hr
  · intro hemp
    have hl := congrArg String.length hemp
    rw [String.length_append] at hl
    have h7 : ("file://" : String).length = 7 := by decide
    have h0 : ("" : String).length = 0 := by decide
    rw [h7, h0] at hl
    omega

/-- Witness for C10: slug `fn`, docker functions dir `/funcs`, bundler
output `[9]`: the artifact carries the default locators and the
import-map URI is non-empty. -/
theorem deployOne_default_import_map_witness :
    (bundleFunction "fn" "" "/funcs" id
      ⟨.ok (), .ok "", .ok (), .ok [9], true⟩).2 =
      .ok { compressedBody := magicBytes ++ [9]
            entrypointPath := pathJoin (pathJoin "/funcs" "fn") "index.ts"
            importMapPath := pathJoin "/funcs" "import_map.json" } ∧
    "file://" ++ pathJoin "/funcs" "import_map.json" ≠ "" := by
  have h := deployOne_default_import_map "fn" "proj" "/funcs" ⟨"", true⟩ id
    ⟨.ok (), .ok "", .ok (), .ok [9], true⟩
    (fun _ => ⟨.response ⟨404, false, ""⟩, .response ⟨201, true, ""⟩,
               .response ⟨200, true, ""⟩⟩)
    [9] rfl rfl rfl rfl rfl
  exact ⟨h.1, h.2.2⟩

end Deploy
